import Mathlib

/-!
Verification of the sentiment-analysis service in `ml-model/app.py`.

The classifier (`SentimentAnalyzer.predict`) and the two Flask handlers
(`predict_sentiment` for POST /predict, `batch_predict` for POST
/batch-predict) are embedded shallowly:

* Python strings become Lean `String`, and the string pipeline of `predict`
  is expressed over the character list `s.data`: `str.lower` is
  per-character lowercasing, `str.translate` deleting `string.punctuation`
  is a character filter, `str.split()` splits on whitespace runs dropping
  empty pieces, and `str.strip()` drops leading and trailing whitespace.
* Python floats become `ℚ`; `round(x, 3)` becomes rounding to a multiple of
  1/1000 with ties to even (Python 3 banker's rounding).
* JSON values reaching the handlers become the inductive `JValue`; a parsed
  request body is `Option JObject` (`none` for an absent or falsy body).
* The CloudWatch client becomes an optional sink function that either
  succeeds or raises a `SinkError`: a `ClientError`, which `put_metric`
  catches and logs, or a `BotoCoreError`-family exception (unreachable
  endpoint, timeout, credentials), which `put_metric` does not catch and
  which therefore propagates to the handler's `except Exception` block and
  its 500 path, modelled by `predict_sentiment_app`.
* Flask responses become inductive response types paired with the list of
  metric events the handler emitted.
-/

namespace MLModel

/-- Python `string.punctuation`. -/
def punctuation : String := "!\"#$%&\x27()*+,-./:;<=>?@[\\]^_`\x7b|\x7d~"

/-- `string.punctuation` as a character list. -/
def punctChars : List Char := punctuation.data

/-- Python whitespace characters recognised by `str.split()` / `str.strip()`
(the ASCII ones: space, tab, newline, carriage return, vertical tab,
form feed). -/
def isPySpace (c : Char) : Bool :=
  c == ' ' || c == '\t' || c == '\n' || c == '\r' || c == '\x0b' || c == '\x0c'

/-- `self.positive_words` from `SentimentAnalyzer.__init__`. -/
def positive_words : List String :=
  ["good", "great", "excellent", "amazing", "wonderful", "fantastic",
   "awesome", "brilliant", "outstanding", "perfect", "love", "like",
   "happy", "pleased", "satisfied", "impressed", "recommend"]

/-- `self.negative_words` from `SentimentAnalyzer.__init__`. -/
def negative_words : List String :=
  ["bad", "terrible", "awful", "horrible", "disappointing", "hate",
   "dislike", "angry", "frustrated", "annoyed", "poor", "worst",
   "useless", "broken", "failed", "error", "problem", "issue"]

/-- Round a rational to an integer, ties to even (Python 3 `round`). -/
def roundHalfEven (q : ℚ) : ℤ :=
  let f : ℤ := ⌊q⌋
  let r : ℚ := q - f
  if r < 1/2 then f
  else if 1/2 < r then f + 1
  else if f % 2 = 0 then f else f + 1

/-- Python `round(q, 3)`. -/
def round3 (q : ℚ) : ℚ := (roundHalfEven (q * 1000) : ℚ) / 1000

/-- `text.lower()`, per character. -/
def pyLower (cs : List Char) : List Char := cs.map Char.toLower

/-- `text_lower.translate(str.maketrans("", "", string.punctuation))`:
delete every punctuation character. -/
def removePunct (cs : List Char) : List Char :=
  cs.filter (fun c => !(punctChars.contains c))

/-- `text_clean.split()`: split on whitespace runs, dropping empty pieces.
The accumulator holds the current word read so far. -/
def splitWs : List Char → List Char → List (List Char)
  | [], acc => if acc.isEmpty then [] else [acc.reverse]
  | c :: cs, acc =>
    if isPySpace c then
      if acc.isEmpty then splitWs cs [] else acc.reverse :: splitWs cs []
    else splitWs cs (c :: acc)

/-- `text.strip()`: drop leading and trailing whitespace. -/
def pyStrip (cs : List Char) : List Char :=
  ((cs.dropWhile isPySpace).reverse.dropWhile isPySpace).reverse

/-- `words` in `SentimentAnalyzer.predict` (lines 84-89 of app.py). -/
def wordsOf (s : String) : List (List Char) :=
  splitWs (removePunct (pyLower s.data)) []

/-- `positive_count` in `SentimentAnalyzer.predict` (line 91). -/
def positive_count (s : String) : Nat :=
  (wordsOf s).countP (fun w => (positive_words.map String.data).contains w)

/-- `negative_count` in `SentimentAnalyzer.predict` (line 92). -/
def negative_count (s : String) : Nat :=
  (wordsOf s).countP (fun w => (negative_words.map String.data).contains w)

/-- Sentiment labels. -/
inductive Sentiment where
  | positive
  | negative
  | neutral
deriving DecidableEq, Repr

/-- The dictionary returned by `SentimentAnalyzer.predict`: the happy path
carries the two word counts and no error; the invalid-input path carries an
error and no counts. -/
structure SentimentResult where
  sentiment : Sentiment
  confidence : ℚ
  positive_words : Option Nat
  negative_words : Option Nat
  error : Option String
deriving DecidableEq, Repr

/-- The invalid-input value returned at lines 78-82 of app.py. -/
def invalidInputResult : SentimentResult :=
  { sentiment := .neutral
    confidence := 0
    positive_words := none
    negative_words := none
    error := some "Invalid input text" }

/-- The happy path of `SentimentAnalyzer.predict` (lines 84-114): tokenize,
count keyword hits, decide by majority, round the confidence to 3 decimals. -/
def analyzeText (s : String) : SentimentResult :=
  let p := positive_count s
  let n := negative_count s
  let total := p + n
  if total = 0 then
    { sentiment := .neutral, confidence := round3 (1/2)
      positive_words := some p, negative_words := some n, error := none }
  else if n < p then
    { sentiment := .positive, confidence := round3 ((p : ℚ) / (total : ℚ))
      positive_words := some p, negative_words := some n, error := none }
  else if p < n then
    { sentiment := .negative, confidence := round3 ((n : ℚ) / (total : ℚ))
      positive_words := some p, negative_words := some n, error := none }
  else
    { sentiment := .neutral, confidence := round3 (1/2)
      positive_words := some p, negative_words := some n, error := none }

/-- A JSON value as seen by the handlers (enough structure for the fields
the code inspects: strings, lists, and non-string scalars). -/
inductive JValue where
  | jstr (s : String)
  | jnum (n : Int)
  | jbool (b : Bool)
  | jnull
  | jarr (xs : List JValue)

/-- `SentimentAnalyzer.predict` (lines 75-114): any non-string or falsy
(empty) input takes the invalid branch before tokenization. -/
def predict (text : JValue) : SentimentResult :=
  match text with
  | .jstr s => if s = "" then invalidInputResult else analyzeText s
  | _ => invalidInputResult

/-- A parsed JSON object body: an association list of fields. The handlers
receive `Option JObject`: `none` stands for `request.get_json()` returning
`None` (or a falsy body, which behaves identically under `not data` since an
empty dict also has no fields). -/
def JObject := List (String × JValue)

/-- `not data or key not in data` / `data[key]`: field lookup, `none` when
the body is absent or the field is missing. -/
def jsonGet (data : Option JObject) (key : String) : Option JValue :=
  match data with
  | none => none
  | some kvs => (kvs.find? (fun kv => kv.fst == key)).map (fun kv => kv.snd)

/-- An exception raised by the CloudWatch client's `put_metric_data`:
either a `botocore.exceptions.ClientError` (API-level failure such as
throttling or access denied), or any other exception — in particular the
`BotoCoreError` family raised for an unreachable endpoint, a timeout or
missing credentials. Only the former is caught by `put_metric`. -/
inductive SinkError where
  | clientError (msg : String)
  | botoCoreError (msg : String)
deriving DecidableEq, Repr

/-- `str(e)` of a sink exception. -/
def SinkError.message : SinkError → String
  | .clientError m => m
  | .botoCoreError m => m

/-- The CloudWatch client: absent (`cloudwatch is None`), or a function
that records a metric and either returns normally or raises a
`SinkError`. -/
def MetricsSink := String → ℚ → String → Except SinkError Unit

/-- What an emission call observably does when it returns: skip (no
client), emit, or log a caught `ClientError`. -/
inductive MetricEvent where
  | skipped (name : String)
  | emitted (name : String) (value : ℚ) (unit : String)
  | loggedFailure (name : String) (msg : String)

/-- `put_metric` (lines 121-145 of app.py): no client means skip; a
`ClientError` from the client is caught and logged. Any other exception
(the `BotoCoreError` family) is NOT caught by the `except ClientError`
clause at line 144 and propagates to the caller. -/
def put_metric (cloudwatch : Option MetricsSink) (name : String) (value : ℚ)
    (unit : String) : Except SinkError MetricEvent :=
  match cloudwatch with
  | none => .ok (.skipped name)
  | some sink =>
    match sink name value unit with
    | .ok _ => .ok (.emitted name value unit)
    | .error (.clientError e) => .ok (.loggedFailure name e)
    | .error (.botoCoreError e) => .error (.botoCoreError e)

/-- Response of POST /predict: a 400 with an error body; a 200 carrying
the prediction, the echoed input and the model version; the generic 500
built by the handler's `except Exception` block (lines 211-215 of app.py);
or a bare 500 from the hosting framework when an exception escapes the
handler itself. -/
inductive PredictResponse where
  | clientError (error : String)
  | ok (prediction : SentimentResult) (input_text : String)
      (model_version : String)
  | serverError (error : String) (message : String)
  | unhandled (message : String)
deriving DecidableEq, Repr

/-- HTTP status of a /predict response. -/
def PredictResponse.status : PredictResponse → Nat
  | .clientError _ => 400
  | .ok _ _ _ => 200
  | .serverError _ _ => 500
  | .unhandled _ => 500

/-- The try body of `predict_sentiment` (lines 168-209 of app.py):
validation, prediction and response shaping, together with the recorded
outcomes of its two metric emissions. The response component is the one
returned when no emission exception escapes; the surrounding try/except,
where an uncaught `SinkError` diverts to the 500 path, is modelled by
`predict_sentiment_app` below. -/
def predict_sentiment (cloudwatch : Option MetricsSink)
    (data : Option JObject) :
    PredictResponse × List (Except SinkError MetricEvent) :=
  match jsonGet data "text" with
  | none => (.clientError "Missing required field: text", [])
  | some v =>
    match v with
    | .jstr text =>
      if (pyStrip text.data).length = 0 then
        (.clientError "Text must be a non-empty string", [])
      else if 1000 < text.length then
        (.clientError "Text too long. Maximum 1000 characters allowed.", [])
      else
        (.ok (predict (.jstr text)) text "1.0.0",
         [put_metric cloudwatch "Predictions" 1 "Count",
          put_metric cloudwatch "TextLength" (text.length : ℚ) "Count"])
    | _ => (.clientError "Text must be a non-empty string", [])

/-- `predict_sentiment`, the POST /predict handler with its try/except
(lines 164-215 of app.py): the try body runs validation, prediction and the
two metric emissions in order; a `SinkError` that `put_metric` did not
catch aborts the try body, and the `except Exception` block (line 211)
emits the Errors counter and answers the generic 500; if that emission
itself raises, the exception escapes the handler and the hosting framework
answers a bare 500. -/
def predict_sentiment_app (cloudwatch : Option MetricsSink)
    (data : Option JObject) : PredictResponse × List MetricEvent :=
  match jsonGet data "text" with
  | none => (.clientError "Missing required field: text", [])
  | some v =>
    match v with
    | .jstr text =>
      if (pyStrip text.data).length = 0 then
        (.clientError "Text must be a non-empty string", [])
      else if 1000 < text.length then
        (.clientError "Text too long. Maximum 1000 characters allowed.", [])
      else
        match put_metric cloudwatch "Predictions" 1 "Count" with
        | .error e =>
          match put_metric cloudwatch "Errors" 1 "Count" with
          | .ok ev => (.serverError "Internal server error" e.message, [ev])
          | .error e2 => (.unhandled e2.message, [])
        | .ok ev1 =>
          match put_metric cloudwatch "TextLength" (text.length : ℚ)
              "Count" with
          | .error e =>
            match put_metric cloudwatch "Errors" 1 "Count" with
            | .ok ev =>
              (.serverError "Internal server error" e.message, [ev1, ev])
            | .error e2 => (.unhandled e2.message, [ev1])
          | .ok ev2 => (.ok (predict (.jstr text)) text "1.0.0", [ev1, ev2])
    | _ => (.clientError "Text must be a non-empty string", [])

/-- One entry of the batch `results` list (lines 238-246 of app.py). -/
inductive BatchItem where
  | itemError (index : Nat) (error : String)
  | itemOk (index : Nat) (prediction : SentimentResult) (input_text : String)
deriving DecidableEq, Repr

/-- The loop body of `batch_predict`: a non-string element yields a
per-item error entry, a string element yields a per-item prediction. -/
def batchItem (i : Nat) (v : JValue) : BatchItem :=
  match v with
  | .jstr s => .itemOk i (predict (.jstr s)) s
  | _ => .itemError i "Text must be a string"

/-- Response of POST /batch-predict: a 400 with an error body, or a 200
carrying the per-item results, the total count and the model version. -/
inductive BatchResponse where
  | clientError (error : String)
  | ok (results : List BatchItem) (total_texts : Nat) (model_version : String)
deriving DecidableEq, Repr

/-- HTTP status of a /batch-predict response. -/
def BatchResponse.status : BatchResponse → Nat
  | .clientError _ => 400
  | .ok _ _ _ => 200

/-- The try body of `batch_predict`, the POST /batch-predict handler
(lines 218-263 of app.py): validation, the per-item loop and response
shaping, with the recorded outcomes of its two metric emissions (its
try/except at lines 265-269 has the same shape as the one of
`predict_sentiment_app`). -/
def batch_predict (cloudwatch : Option MetricsSink)
    (data : Option JObject) :
    BatchResponse × List (Except SinkError MetricEvent) :=
  match jsonGet data "texts" with
  | none => (.clientError "Missing required field: texts", [])
  | some v =>
    match v with
    | .jarr texts =>
      if 100 < texts.length then
        (.clientError "Too many texts. Maximum 100 texts allowed.", [])
      else
        (.ok (texts.enum.map (fun p => batchItem p.1 p.2)) texts.length "1.0.0",
         [put_metric cloudwatch "BatchPredictions" 1 "Count",
          put_metric cloudwatch "BatchSize" (texts.length : ℚ) "Count"])
    | _ => (.clientError "Texts must be a list", [])

/-! ### Helper lemmas -/

theorem round3_one : round3 1 = 1 := by
  norm_num [round3, roundHalfEven]

theorem round3_half : round3 (1/2) = 1/2 := by
  norm_num [round3, roundHalfEven]

theorem analyzeText_positive_words (s : String) :
    (analyzeText s).positive_words = some (positive_count s) := by
  unfold analyzeText
  dsimp only
  split_ifs <;> rfl

theorem analyzeText_negative_words (s : String) :
    (analyzeText s).negative_words = some (negative_count s) := by
  unfold analyzeText
  dsimp only
  split_ifs <;> rfl

theorem analyzeText_error (s : String) : (analyzeText s).error = none := by
  unfold analyzeText
  dsimp only
  split_ifs <;> rfl

theorem predict_nonempty (s : String) (hs : s ≠ "") :
    predict (.jstr s) = analyzeText s := by
  simp [predict, hs]

/-! ### Claims -/

/-- C1: for every non-empty string input, `predict` decides on the counts of
positive and negative keyword tokens: zero total gives neutral at
confidence 0.5, a strict majority gives that side at confidence
winning/total rounded to three decimals, a nonzero tie gives neutral at
0.5; the result carries both counts and no error field. -/
theorem C1_predict_decision (s : String) (hs : s ≠ "") :
    (positive_count s + negative_count s = 0 →
      predict (.jstr s) =
        { sentiment := .neutral, confidence := 1/2
          positive_words := some (positive_count s)
          negative_words := some (negative_count s), error := none }) ∧
    (negative_count s < positive_count s →
      predict (.jstr s) =
        { sentiment := .positive
          confidence := round3 ((positive_count s : ℚ) /
            ((positive_count s : ℚ) + (negative_count s : ℚ)))
          positive_words := some (positive_count s)
          negative_words := some (negative_count s), error := none }) ∧
    (positive_count s < negative_count s →
      predict (.jstr s) =
        { sentiment := .negative
          confidence := round3 ((negative_count s : ℚ) /
            ((positive_count s : ℚ) + (negative_count s : ℚ)))
          positive_words := some (positive_count s)
          negative_words := some (negative_count s), error := none }) ∧
    (positive_count s = negative_count s → positive_count s ≠ 0 →
      predict (.jstr s) =
        { sentiment := .neutral, confidence := 1/2
          positive_words := some (positive_count s)
          negative_words := some (negative_count s), error := none }) := by
  rw [predict_nonempty s hs]
  refine ⟨?_, ?_, ?_, ?_⟩
  · intro h0
    simp [analyzeText, h0]
    norm_num [round3, roundHalfEven]
  · intro hlt
    have h0 : ¬ (positive_count s + negative_count s = 0) := by omega
    simp [analyzeText, h0, hlt, Nat.cast_add]
  · intro hlt
    have h0 : ¬ (positive_count s + negative_count s = 0) := by omega
    have h1 : ¬ (negative_count s < positive_count s) := by omega
    simp [analyzeText, h0, h1, hlt, Nat.cast_add]
  · intro heq hne
    have h0 : ¬ (positive_count s + negative_count s = 0) := by omega
    have h1 : ¬ (negative_count s < positive_count s) := by omega
    have h2 : ¬ (positive_count s < negative_count s) := by omega
    simp [analyzeText, h0, h1, h2]
    norm_num [round3, roundHalfEven]

/-- Witness for C1 at the input "great": one positive keyword, zero
negative, so the majority branch applies with confidence 1/1. -/
theorem C1_predict_decision_witness :
    predict (.jstr "great") =
      { sentiment := .positive
        confidence := round3 ((positive_count "great" : ℚ) /
          ((positive_count "great" : ℚ) + (negative_count "great" : ℚ)))
        positive_words := some (positive_count "great")
        negative_words := some (negative_count "great"), error := none } :=
  (C1_predict_decision "great" (by decide)).2.1 (by decide)

/-- C2: for every non-empty string input, `predict` counts exactly the
tokens of the normalized text (lower-cased, punctuation deleted, split on
whitespace) that belong to each keyword set; in particular
"This is great!" is positive at confidence 1.0 with counts (1, 0) and
"This is terrible and awful!" is negative at confidence 1.0 with counts
(0, 2). -/
theorem C2_normalization_and_examples :
    (∀ s : String, s ≠ "" →
      (predict (.jstr s)).positive_words =
        some ((splitWs ((s.data.map Char.toLower).filter
            (fun c => !(punctChars.contains c))) []).countP
          (fun w => (positive_words.map String.data).contains w)) ∧
      (predict (.jstr s)).negative_words =
        some ((splitWs ((s.data.map Char.toLower).filter
            (fun c => !(punctChars.contains c))) []).countP
          (fun w => (negative_words.map String.data).contains w))) ∧
    predict (.jstr "This is great!") =
      { sentiment := .positive, confidence := 1, positive_words := some 1
        negative_words := some 0, error := none } ∧
    predict (.jstr "This is terrible and awful!") =
      { sentiment := .negative, confidence := 1, positive_words := some 0
        negative_words := some 2, error := none } := by
  refine ⟨?_, ?_, ?_⟩
  · intro s hs
    rw [predict_nonempty s hs]
    exact ⟨analyzeText_positive_words s, analyzeText_negative_words s⟩
  · have hp : positive_count "This is great!" = 1 := by decide
    have hn : negative_count "This is great!" = 0 := by decide
    rw [predict_nonempty _ (by decide)]
    unfold analyzeText
    rw [hp, hn]
    norm_num [round3_one]
  · have hp : positive_count "This is terrible and awful!" = 0 := by decide
    have hn : negative_count "This is terrible and awful!" = 2 := by decide
    rw [predict_nonempty _ (by decide)]
    unfold analyzeText
    rw [hp, hn]
    norm_num [round3_one]

/-- Witness for C2 at the input "great". -/
theorem C2_normalization_and_examples_witness :
    (predict (.jstr "great")).positive_words =
      some ((splitWs (("great".data.map Char.toLower).filter
          (fun c => !(punctChars.contains c))) []).countP
        (fun w => (positive_words.map String.data).contains w)) :=
  (C2_normalization_and_examples.1 "great" (by decide)).1

theorem predict_invalid_eq (v : JValue)
    (h : v = .jstr "" ∨ ∀ s, v ≠ .jstr s) :
    predict v = invalidInputResult := by
  cases v with
  | jstr s =>
    rcases h with h | h
    · cases h
      rfl
    · exact absurd rfl (h s)
  | jnum n => rfl
  | jbool b => rfl
  | jnull => rfl
  | jarr xs => rfl

/-- C3: every empty-string, falsy or non-string input makes `predict`
return the normal value with sentiment neutral, confidence 0.0 and the
error message, carrying no word-count fields; no exception is raised. -/
theorem C3_invalid_input (v : JValue)
    (h : v = .jstr "" ∨ ∀ s, v ≠ .jstr s) :
    predict v =
      { sentiment := .neutral, confidence := 0, positive_words := none
        negative_words := none, error := some "Invalid input text" } := by
  rw [predict_invalid_eq v h]
  rfl

/-- Witness for C3 at the non-string input `null`. -/
theorem C3_invalid_input_witness :
    predict .jnull =
      { sentiment := .neutral, confidence := 0, positive_words := none
        negative_words := none, error := some "Invalid input text" } :=
  C3_invalid_input .jnull (Or.inr fun _ h => JValue.noConfusion h)

theorem roundHalfEven_nonneg (q : ℚ) (h : 0 ≤ q) : 0 ≤ roundHalfEven q := by
  unfold roundHalfEven
  have hf : (0:ℤ) ≤ ⌊q⌋ := Int.floor_nonneg.mpr h
  dsimp only
  split_ifs <;> omega

theorem roundHalfEven_le (q : ℚ) (m : ℤ) (h : q ≤ m) : roundHalfEven q ≤ m := by
  unfold roundHalfEven
  have hf : ⌊q⌋ ≤ m := by
    have h1 : ⌊q⌋ ≤ ⌊(m : ℚ)⌋ := Int.floor_le_floor h
    rwa [Int.floor_intCast] at h1
  dsimp only
  split_ifs with h1 h2 h3
  · exact hf
  all_goals
    have hlt : (⌊q⌋ : ℚ) < q := by
      push_neg at h1
      have hfloor := Int.floor_le q
      linarith
    have hm : (⌊q⌋ : ℚ) < (m : ℚ) := lt_of_lt_of_le hlt h
    have : ⌊q⌋ < m := by exact_mod_cast hm
    omega

theorem round3_nonneg (q : ℚ) (h : 0 ≤ q) : 0 ≤ round3 q := by
  unfold round3
  have h1 : (0:ℤ) ≤ roundHalfEven (q * 1000) :=
    roundHalfEven_nonneg _ (by positivity)
  positivity

theorem round3_le_one (q : ℚ) (h : q ≤ 1) : round3 q ≤ 1 := by
  unfold round3
  have h1 : roundHalfEven (q * 1000) ≤ (1000:ℤ) :=
    roundHalfEven_le _ 1000 (by push_cast; nlinarith)
  rw [div_le_one (by norm_num)]
  exact_mod_cast h1

/-- C8: every confidence returned by `predict` lies in [0, 1], and is
exactly 0, exactly 1/2, or the winning count over the total of the two
reported counts, rounded to three decimal places. -/
theorem C8_confidence_range (v : JValue) :
    (0 ≤ (predict v).confidence ∧ (predict v).confidence ≤ 1) ∧
    ((predict v).confidence = 0 ∨ (predict v).confidence = 1/2 ∨
      ∃ w p n, (predict v).positive_words = some p ∧
        (predict v).negative_words = some n ∧ (w = p ∨ w = n) ∧ 0 < p + n ∧
        (predict v).confidence = round3 ((w : ℚ) / ((p : ℚ) + (n : ℚ)))) := by
  cases v with
  | jstr s =>
    by_cases hs : s = ""
    · subst hs
      rw [predict_invalid_eq _ (Or.inl rfl)]
      exact ⟨by norm_num [invalidInputResult], Or.inl rfl⟩
    rcases C1_predict_decision s hs with ⟨hz, hpos, hneg, htie⟩
    rcases Nat.lt_trichotomy (negative_count s) (positive_count s)
      with hlt | heq | hlt
    · rw [hpos hlt]
      have hp0 : 0 < positive_count s := by omega
      have hd1 : (0:ℚ) < (positive_count s : ℚ) := by exact_mod_cast hp0
      have hd2 : (0:ℚ) ≤ (negative_count s : ℚ) := by positivity
      have hub : (positive_count s : ℚ) /
          ((positive_count s : ℚ) + (negative_count s : ℚ)) ≤ 1 := by
        rw [div_le_one (by linarith)]
        linarith
      have hlb : 0 ≤ (positive_count s : ℚ) /
          ((positive_count s : ℚ) + (negative_count s : ℚ)) := by positivity
      refine ⟨⟨round3_nonneg _ hlb, round3_le_one _ hub⟩,
        Or.inr (Or.inr ?_)⟩
      exact ⟨positive_count s, positive_count s, negative_count s, rfl, rfl,
        Or.inl rfl, by omega, rfl⟩
    · by_cases h0 : positive_count s = 0
      · rw [hz (by omega)]
        exact ⟨by norm_num, Or.inr (Or.inl rfl)⟩
      · rw [htie heq.symm h0]
        exact ⟨by norm_num, Or.inr (Or.inl rfl)⟩
    · rw [hneg hlt]
      have hn0 : 0 < negative_count s := by omega
      have hd1 : (0:ℚ) < (negative_count s : ℚ) := by exact_mod_cast hn0
      have hd2 : (0:ℚ) ≤ (positive_count s : ℚ) := by positivity
      have hub : (negative_count s : ℚ) /
          ((positive_count s : ℚ) + (negative_count s : ℚ)) ≤ 1 := by
        rw [div_le_one (by linarith)]
        linarith
      have hlb : 0 ≤ (negative_count s : ℚ) /
          ((positive_count s : ℚ) + (negative_count s : ℚ)) := by positivity
      refine ⟨⟨round3_nonneg _ hlb, round3_le_one _ hub⟩,
        Or.inr (Or.inr ?_)⟩
      exact ⟨negative_count s, positive_count s, negative_count s, rfl, rfl,
        Or.inr rfl, by omega, rfl⟩
  | jnum n =>
    rw [predict_invalid_eq _ (Or.inr fun _ h => JValue.noConfusion h)]
    exact ⟨by norm_num [invalidInputResult], Or.inl rfl⟩
  | jbool b =>
    rw [predict_invalid_eq _ (Or.inr fun _ h => JValue.noConfusion h)]
    exact ⟨by norm_num [invalidInputResult], Or.inl rfl⟩
  | jnull =>
    rw [predict_invalid_eq _ (Or.inr fun _ h => JValue.noConfusion h)]
    exact ⟨by norm_num [invalidInputResult], Or.inl rfl⟩
  | jarr xs =>
    rw [predict_invalid_eq _ (Or.inr fun _ h => JValue.noConfusion h)]
    exact ⟨by norm_num [invalidInputResult], Or.inl rfl⟩

/-- C6 counterexample: the claim fails as stated. With a metrics client
whose emission raises a `BotoCoreError` (an unreachable sink: the message
is the one of `EndpointConnectionError`), the valid request with text
"great" gets a 500 from /predict, while with the client absent the same
request gets a 200: `put_metric` catches only `ClientError` (line 144 of
app.py), so the failure propagates to `except Exception` at line 211
instead of being swallowed. -/
theorem C6_metric_failure_changes_response :
    (predict_sentiment_app
        (some (fun _ _ _ => .error (.botoCoreError
          "Could not connect to the endpoint URL")))
        (some [("text", .jstr "great")])).1.status = 500 ∧
    (predict_sentiment_app none
        (some [("text", .jstr "great")])).1.status = 200 ∧
    (predict_sentiment_app none (some [("text", .jstr "great")])).1
      = .ok (predict (.jstr "great")) "great" "1.0.0" :=
  ⟨rfl, rfl, rfl⟩

/-- C6 (amended): for every valid /predict request, an emission failure of
the kinds the code swallows — the metrics client being absent, or every
emission call either succeeding or raising a `ClientError` — never changes
the HTTP status code or body of the /predict response; those failures are
logged and swallowed. (An emission raising any other exception, such as
the `BotoCoreError` family, instead propagates and turns the response into
a 500, as the counterexample shows.) -/
theorem C6_metrics_nonfatal_amended (cw : Option MetricsSink)
    (data : Option JObject)
    (hcw : ∀ sink, cw = some sink → ∀ name v u,
      sink name v u = .ok () ∨ ∃ m, sink name v u = .error (.clientError m)) :
    (predict_sentiment_app cw data).1 = (predict_sentiment_app none data).1 := by
  have hput : ∀ name v u, ∃ ev,
      put_metric cw name v u = Except.ok ev := by
    intro name v u
    cases hc : cw with
    | none => exact ⟨.skipped name, rfl⟩
    | some sink =>
      rcases hcw sink hc name v u with h | ⟨m, h⟩
      · exact ⟨.emitted name v u, by simp [put_metric, h]⟩
      · exact ⟨.loggedFailure name m, by simp [put_metric, h]⟩
  unfold predict_sentiment_app
  rcases hj : jsonGet data "text" with _ | v
  · rfl
  cases v with
  | jstr text =>
    dsimp only
    by_cases h1 : (pyStrip text.data).length = 0
    · simp only [if_pos h1]
    simp only [if_neg h1]
    by_cases h2 : 1000 < text.length
    · simp only [if_pos h2]
    simp only [if_neg h2]
    obtain ⟨ev1, he1⟩ := hput "Predictions" 1 "Count"
    obtain ⟨ev2, he2⟩ := hput "TextLength" (text.length : ℚ) "Count"
    rw [he1, he2]
    rfl
  | jnum n => rfl
  | jbool b => rfl
  | jnull => rfl
  | jarr xs => rfl

/-- Witness for amended C6: a client that always raises a `ClientError`
(throttling) leaves the response to the request with text "great"
unchanged. -/
theorem C6_metrics_nonfatal_amended_witness :
    (predict_sentiment_app
        (some (fun _ _ _ => .error (.clientError "Throttling")))
        (some [("text", .jstr "great")])).1
      = (predict_sentiment_app none (some [("text", .jstr "great")])).1 :=
  C6_metrics_nonfatal_amended
    (some (fun _ _ _ => .error (.clientError "Throttling")))
    (some [("text", .jstr "great")])
    (fun sink hs name v u => by
      cases hs
      exact Or.inr ⟨"Throttling", rfl⟩)

/-- C7: whenever /predict answers 200, the prediction it carries has no
error field: input that passed the service-layer validation can never take
the classifier's invalid-input branch. -/
theorem C7_success_has_no_error (cw : Option MetricsSink)
    (data : Option JObject) (r : SentimentResult) (t mv : String)
    (h : (predict_sentiment cw data).1 = .ok r t mv) :
    r.error = none := by
  unfold predict_sentiment at h
  rcases hj : jsonGet data "text" with _ | v
  · rw [hj] at h
    simp at h
  rw [hj] at h
  cases v with
  | jstr text =>
    dsimp only at h
    by_cases h1 : (pyStrip text.data).length = 0
    · rw [if_pos h1] at h
      simp at h
    rw [if_neg h1] at h
    by_cases h2 : 1000 < text.length
    · rw [if_pos h2] at h
      simp at h
    rw [if_neg h2] at h
    simp only [PredictResponse.ok.injEq] at h
    have hr : predict (.jstr text) = r := h.1
    have htext : text ≠ "" := by
      intro he
      subst he
      exact h1 rfl
    rw [← hr, predict_nonempty text htext]
    exact analyzeText_error text
  | jnum n => simp at h
  | jbool b => simp at h
  | jnull => simp at h
  | jarr xs => simp at h

/-- Witness for C7 at the request body with text "hello". -/
theorem C7_success_has_no_error_witness :
    (predict (.jstr "hello")).error = none :=
  C7_success_has_no_error none (some [("text", .jstr "hello")])
    (predict (.jstr "hello")) "hello" "1.0.0" rfl

/-- C4: POST /predict answers 400 with an error body when the field "text"
is missing, not a string, empty after trimming, or longer than 1000
characters on the raw string; otherwise it answers 200 with the classifier
result, the echoed input and the fixed model version. -/
theorem C4_predict_contract (cw : Option MetricsSink) (data : Option JObject) :
    (jsonGet data "text" = none →
      (predict_sentiment cw data).1.status = 400 ∧
      ∃ e, (predict_sentiment cw data).1 = .clientError e) ∧
    (∀ v, jsonGet data "text" = some v → (∀ s, v ≠ .jstr s) →
      (predict_sentiment cw data).1.status = 400 ∧
      ∃ e, (predict_sentiment cw data).1 = .clientError e) ∧
    (∀ s, jsonGet data "text" = some (.jstr s) →
      (pyStrip s.data).length = 0 →
      (predict_sentiment cw data).1.status = 400 ∧
      ∃ e, (predict_sentiment cw data).1 = .clientError e) ∧
    (∀ s, jsonGet data "text" = some (.jstr s) → 1000 < s.length →
      (predict_sentiment cw data).1.status = 400 ∧
      ∃ e, (predict_sentiment cw data).1 = .clientError e) ∧
    (∀ s, jsonGet data "text" = some (.jstr s) →
      (pyStrip s.data).length ≠ 0 → s.length ≤ 1000 →
      (predict_sentiment cw data).1 = .ok (predict (.jstr s)) s "1.0.0" ∧
      (predict_sentiment cw data).1.status = 200) := by
  refine ⟨?_, ?_, ?_, ?_, ?_⟩
  · intro h
    have he : (predict_sentiment cw data).1 =
        .clientError "Missing required field: text" := by
      unfold predict_sentiment
      rw [h]
    exact ⟨by rw [he]; rfl, ⟨_, he⟩⟩
  · intro v hv hns
    have he : ∃ e, (predict_sentiment cw data).1 = .clientError e := by
      unfold predict_sentiment
      rw [hv]
      cases v with
      | jstr s => exact absurd rfl (hns s)
      | jnum n => exact ⟨_, rfl⟩
      | jbool b => exact ⟨_, rfl⟩
      | jnull => exact ⟨_, rfl⟩
      | jarr xs => exact ⟨_, rfl⟩
    rcases he with ⟨e, he⟩
    exact ⟨by rw [he]; rfl, ⟨e, he⟩⟩
  · intro s hv h0
    have he : (predict_sentiment cw data).1 =
        .clientError "Text must be a non-empty string" := by
      unfold predict_sentiment
      rw [hv]
      dsimp only
      rw [if_pos h0]
    exact ⟨by rw [he]; rfl, ⟨_, he⟩⟩
  · intro s hv hlen
    by_cases h0 : (pyStrip s.data).length = 0
    · have he : (predict_sentiment cw data).1 =
          .clientError "Text must be a non-empty string" := by
        unfold predict_sentiment
        rw [hv]
        dsimp only
        rw [if_pos h0]
      exact ⟨by rw [he]; rfl, ⟨_, he⟩⟩
    · have he : (predict_sentiment cw data).1 =
          .clientError "Text too long. Maximum 1000 characters allowed." := by
        unfold predict_sentiment
        rw [hv]
        dsimp only
        rw [if_neg h0, if_pos hlen]
      exact ⟨by rw [he]; rfl, ⟨_, he⟩⟩
  · intro s hv h0 hlen
    have he : (predict_sentiment cw data).1 =
        .ok (predict (.jstr s)) s "1.0.0" := by
      unfold predict_sentiment
      rw [hv]
      dsimp only
      rw [if_neg h0, if_neg (by omega : ¬ 1000 < s.length)]
    exact ⟨he, by rw [he]; rfl⟩

set_option maxRecDepth 20000 in
/-- Witness for C4: a 1001-character text is rejected with 400 and a
1000-character text is accepted with 200. -/
theorem C4_predict_contract_witness :
    (predict_sentiment none (some [("text",
        .jstr (String.mk (List.replicate 1001 'a')))])).1.status = 400 ∧
    (predict_sentiment none (some [("text",
        .jstr (String.mk (List.replicate 1000 'a')))])).1.status = 200 :=
  ⟨((C4_predict_contract none (some [("text",
        .jstr (String.mk (List.replicate 1001 'a')))])).2.2.2.1
      (String.mk (List.replicate 1001 'a')) rfl (by decide)).1,
   ((C4_predict_contract none (some [("text",
        .jstr (String.mk (List.replicate 1000 'a')))])).2.2.2.2
      (String.mk (List.replicate 1000 'a')) rfl (by decide) (by decide)).2⟩

/-- C5: POST /batch-predict answers 400 when "texts" is missing, not a
list, or longer than 100; with a valid envelope it answers 200 with
total_texts equal to the input length and one result per input in order,
where position i carries index i and is a per-item error entry exactly for
non-string elements and a per-item prediction entry for string elements. -/
theorem C5_batch_contract (cw : Option MetricsSink) (data : Option JObject) :
    (jsonGet data "texts" = none → (batch_predict cw data).1.status = 400) ∧
    (∀ v, jsonGet data "texts" = some v → (∀ xs, v ≠ .jarr xs) →
      (batch_predict cw data).1.status = 400) ∧
    (∀ xs, jsonGet data "texts" = some (.jarr xs) → 100 < xs.length →
      (batch_predict cw data).1.status = 400) ∧
    (∀ xs, jsonGet data "texts" = some (.jarr xs) → xs.length ≤ 100 →
      ∃ results : List BatchItem,
        (batch_predict cw data).1 = .ok results xs.length "1.0.0" ∧
        (batch_predict cw data).1.status = 200 ∧
        results.length = xs.length ∧
        ∀ i v, xs[i]? = some v →
          ((∀ s, v ≠ .jstr s) →
            results[i]? = some (BatchItem.itemError i "Text must be a string")) ∧
          (∀ s, v = .jstr s →
            results[i]? = some (BatchItem.itemOk i (predict (.jstr s)) s))) := by
  refine ⟨?_, ?_, ?_, ?_⟩
  · intro h
    unfold batch_predict
    rw [h]
    rfl
  · intro v hv hns
    unfold batch_predict
    rw [hv]
    cases v with
    | jarr xs => exact absurd rfl (hns xs)
    | jstr s => rfl
    | jnum n => rfl
    | jbool b => rfl
    | jnull => rfl
  · intro xs hv hlen
    unfold batch_predict
    rw [hv]
    dsimp only
    rw [if_pos hlen]
    rfl
  · intro xs hv hlen
    have hnl : ¬ 100 < xs.length := by omega
    have hb : (batch_predict cw data).1 =
        .ok (xs.enum.map (fun p => batchItem p.1 p.2)) xs.length "1.0.0" := by
      unfold batch_predict
      rw [hv]
      dsimp only
      rw [if_neg hnl]
    refine ⟨xs.enum.map (fun p => batchItem p.1 p.2), hb,
      by rw [hb]; rfl, by simp, ?_⟩
    intro i v hivv
    constructor
    · intro hns
      simp only [List.getElem?_map, List.getElem?_enum, hivv, Option.map_some]
      cases v with
      | jstr s => exact absurd rfl (hns s)
      | jnum n => rfl
      | jbool b => rfl
      | jnull => rfl
      | jarr ys => rfl
    · intro s hvs
      subst hvs
      simp only [List.getElem?_map, List.getElem?_enum, hivv, Option.map_some]
      rfl

/-- Witness for C5: a batch of exactly 100 elements, each a non-string, is
accepted with total 100 and per-item error entries. -/
theorem C5_batch_contract_witness :
    ∃ results : List BatchItem, (batch_predict none (some [("texts",
        .jarr (List.replicate 100 (.jnum 5)))])).1
      = .ok results (List.replicate 100 (JValue.jnum 5)).length "1.0.0" ∧
      (batch_predict none (some [("texts",
        .jarr (List.replicate 100 (.jnum 5)))])).1.status = 200 ∧
      results.length = (List.replicate 100 (JValue.jnum 5)).length ∧
      ∀ i v, (List.replicate 100 (JValue.jnum 5))[i]? = some v →
        ((∀ s, v ≠ .jstr s) →
          results[i]? = some (BatchItem.itemError i "Text must be a string")) ∧
        (∀ s, v = .jstr s →
          results[i]? = some (BatchItem.itemOk i (predict (.jstr s)) s)) :=
  (C5_batch_contract none (some [("texts",
      .jarr (List.replicate 100 (.jnum 5)))])).2.2.2
    (List.replicate 100 (.jnum 5)) rfl (by decide)

/-- C9: a string element of a valid batch is classified and produces a
per-item prediction entry whatever its length; the 1000-character cap of
/predict does not apply to batch items. -/
theorem C9_batch_no_length_cap (cw : Option MetricsSink)
    (data : Option JObject) (xs : List JValue) (i : Nat) (s : String)
    (henv : jsonGet data "texts" = some (.jarr xs)) (hlen : xs.length ≤ 100)
    (hs : xs[i]? = some (.jstr s)) :
    ∃ results : List BatchItem,
      (batch_predict cw data).1 = .ok results xs.length "1.0.0" ∧
      results[i]? = some (BatchItem.itemOk i (predict (.jstr s)) s) := by
  have hnl : ¬ 100 < xs.length := by omega
  refine ⟨xs.enum.map (fun p => batchItem p.1 p.2), ?_, ?_⟩
  · unfold batch_predict
    rw [henv]
    dsimp only
    rw [if_neg hnl]
  · simp only [List.getElem?_map, List.getElem?_enum, hs, Option.map_some]
    rfl

set_option maxRecDepth 20000 in
/-- Witness for C9 at a batch holding one string of 1001 characters: the
envelope is accepted and the element gets a prediction entry. -/
theorem C9_batch_no_length_cap_witness :
    ∃ results : List BatchItem, (batch_predict none (some [("texts",
        .jarr [.jstr (String.mk (List.replicate 1001 'a'))])])).1
      = .ok results [JValue.jstr (String.mk (List.replicate 1001 'a'))].length
          "1.0.0" ∧
      results[0]? = some (BatchItem.itemOk 0
        (predict (.jstr (String.mk (List.replicate 1001 'a'))))
        (String.mk (List.replicate 1001 'a'))) :=
  C9_batch_no_length_cap none
    (some [("texts", .jarr [.jstr (String.mk (List.replicate 1001 'a'))])])
    [.jstr (String.mk (List.replicate 1001 'a'))] 0
    (String.mk (List.replicate 1001 'a')) rfl (by decide) rfl

/-- C10: an empty-string batch element yields a per-item prediction entry
(not a per-item error entry) whose embedded prediction is the invalid-input
value of the classifier. -/
theorem C10_batch_empty_string_item (cw : Option MetricsSink)
    (data : Option JObject) (xs : List JValue) (i : Nat)
    (henv : jsonGet data "texts" = some (.jarr xs)) (hlen : xs.length ≤ 100)
    (hs : xs[i]? = some (.jstr "")) :
    ∃ results : List BatchItem,
      (batch_predict cw data).1 = .ok results xs.length "1.0.0" ∧
      results[i]? = some (BatchItem.itemOk i
        { sentiment := .neutral, confidence := 0, positive_words := none
          negative_words := none, error := some "Invalid input text" } "") := by
  have hnl : ¬ 100 < xs.length := by omega
  refine ⟨xs.enum.map (fun p => batchItem p.1 p.2), ?_, ?_⟩
  · unfold batch_predict
    rw [henv]
    dsimp only
    rw [if_neg hnl]
  · simp only [List.getElem?_map, List.getElem?_enum, hs, Option.map_some]
    rfl

/-- Witness for C10 at a batch whose single element is the empty string. -/
theorem C10_batch_empty_string_item_witness :
    ∃ results : List BatchItem,
      (batch_predict none (some [("texts", .jarr [.jstr ""])])).1
        = .ok results [JValue.jstr ""].length "1.0.0" ∧
      results[0]? = some (BatchItem.itemOk 0
        { sentiment := .neutral, confidence := 0, positive_words := none
          negative_words := none, error := some "Invalid input text" } "") :=
  C10_batch_empty_string_item none
    (some [("texts", .jarr [.jstr ""])]) [.jstr ""] 0 rfl (by decide) rfl

end MLModel
